import Mathlib

/-!
Verification of the on-page SEO analyzer (src/on-page-seo-score.py).

The script fetches a URL, parses the HTML with BeautifulSoup, extracts a
handful of scalar fields, computes a heuristic SEO score, and renders the
fields plus an optional to-do table. The external library boundaries
(requests, BeautifulSoup, urllib.parse, streamlit) are modelled as data:
a parsed page is a `Soup` record holding exactly the query results the
script asks the parser for, and an HTTP fetch outcome is an `HttpResult`.
Python runtime errors (KeyError on a missing attribute, UnboundLocalError
on reading a never-assigned local) are modelled with `Except String`.
-/

/-- An HTML tag as the script uses it: an attribute dictionary and the
tag text. `attrs` models the BeautifulSoup attribute mapping; `text`
models both `.text` and `.string` as used on title/h1 tags. -/
structure Tag where
  attrs : List (String × String)
  text : String
deriving DecidableEq, Repr

/-- Python `tag.get(key)`: the attribute value, or None when absent. -/
def Tag.get (t : Tag) (k : String) : Option String :=
  (t.attrs.find? (fun p => p.1 == k)).map (fun p => p.2)

/-- Python truthiness of `tag.get(key)`: false exactly for None and the
empty string (the only falsy str). -/
def falsyAttr (v : Option String) : Bool :=
  match v with
  | none => true
  | some s => s == ""

/-- The components of `urllib.parse.urlparse` that the script reads. -/
structure ParsedUrl where
  scheme : String
  netloc : String
deriving DecidableEq, Repr

/-- Scan a character list for the first "://", returning the part before
it and the part after it. -/
def splitSchemeAux (acc : List Char) : List Char → Option (List Char × List Char)
  | ':' :: '/' :: '/' :: rest => some (acc.reverse, rest)
  | c :: cs => splitSchemeAux (c :: acc) cs
  | [] => none

/-- Characters of the netloc: everything up to the first slash. -/
def takeNetloc : List Char → List Char
  | [] => []
  | c :: cs => if c = '/' then [] else c :: takeNetloc cs

/-- Modelled library call `urllib.parse.urlparse`, restricted to the
`scheme` and `netloc` components the script reads: the scheme is the part
before "://" and the netloc runs to the next slash; a URL without "://"
parses with empty scheme and netloc (urlparse then puts the text in the
path component, which the script never reads). -/
def urlparse (url : String) : ParsedUrl :=
  match splitSchemeAux [] url.toList with
  | some (scheme, rest) => ⟨String.mk scheme, String.mk (takeNetloc rest)⟩
  | none => ⟨"", ""⟩

/-- The "Hreflangs" entry of the indexability dictionary holds either a
count (`len(hreflang_tags)` when the list is non-empty) or the string
"Missing": a Python int-or-str union. -/
inductive HreflangsVal where
  | count : Nat → HreflangsVal
  | missing : HreflangsVal
deriving DecidableEq, Repr

/-- The dictionary returned by `extract_indexability_data`
(source lines 57-65), one field per key. -/
structure Indexability where
  canonical_url : String
  self_canonical : String
  robots_txt : String
  robots_meta_tag : String
  x_robots_tag_http : String
  sitemap : String
  hreflangs : HreflangsVal
deriving DecidableEq, Repr

/-- A parsed page, holding exactly the BeautifulSoup query results the
script asks for: `title` is `soup.title`; `metaDescription`,
`ogDescription`, `robotsMeta`, `xRobotsMeta` are the corresponding
`soup.find('meta', ...)` results; `canonicalLink` and `sitemapLink` are
`soup.find('link', rel=...)`; `hreflangLinks` is
`soup.find_all('link', rel='alternate', hreflang=True)`; `imgs` is
`soup.find_all('img')`; `hTags i` for i in 1..6 is `soup.find_all('hi')`
(so `soup.find('h1')` is `(hTags 1).head?`); `text` is `soup.get_text()`. -/
structure Soup where
  title : Option Tag
  metaDescription : Option Tag
  ogDescription : Option Tag
  canonicalLink : Option Tag
  robotsMeta : Option Tag
  xRobotsMeta : Option Tag
  sitemapLink : Option Tag
  hreflangLinks : List Tag
  imgs : List Tag
  hTags : Nat → List Tag
  text : String

/-- Python `str.strip()`: drop leading and trailing whitespace. -/
def pyStrip (s : String) : String :=
  String.mk (((s.toList.dropWhile Char.isWhitespace).reverse.dropWhile Char.isWhitespace).reverse)

/-- Python `tag[key]` item access: the value, or a KeyError when the
attribute is absent. -/
def Tag.getItem (t : Tag) (k : String) : Except String String :=
  match t.get k with
  | some v => Except.ok v
  | none => Except.error ("KeyError: " ++ k)

/-- Embeds `extract_indexability_data` (source lines 33-65). The local
`parsed_url` is assigned only in the else-branch of the sitemap lookup
(lines 48-50); it is modelled as an `Option ParsedUrl` that stays `none`
on the then-branch, so the read at line 52 raises UnboundLocalError
exactly when the script would. -/
def extract_indexability_data (url : String) (soup : Soup) : Except String Indexability := do
  let canonical_url ← match soup.canonicalLink with
    | some t => do pure (pyStrip (← t.getItem "href"))
    | none => pure "Missing"
  let robots_meta_content ← match soup.robotsMeta with
    | some t => t.getItem "content"
    | none => pure "Missing"
  let x_robots_content ← match soup.xRobotsMeta with
    | some t => t.getItem "content"
    | none => pure "Missing"
  let elseBranch : Option ParsedUrl × String :=
    let parsed := urlparse url
    (some parsed, parsed.scheme ++ "://" ++ parsed.netloc ++ "/sitemap.xml")
  let sitemapState : Option ParsedUrl × String :=
    match soup.sitemapLink with
    | some t => if !falsyAttr (t.get "href") then (none, (t.get "href").getD "") else elseBranch
    | none => elseBranch
  let parsed_url := sitemapState.1
  let sitemap_url := sitemapState.2
  let robots_txt_url ← match parsed_url with
    | some p => pure (p.scheme ++ "://" ++ p.netloc ++ "/robots.txt")
    | none => Except.error "UnboundLocalError: parsed_url"
  let hreflangs : HreflangsVal :=
    if soup.hreflangLinks.length > 0 then .count soup.hreflangLinks.length else .missing
  pure { canonical_url := canonical_url
         self_canonical := if canonical_url == url then "✅ Matches URL" else "❌ Does Not Match"
         robots_txt := robots_txt_url
         robots_meta_tag := robots_meta_content
         x_robots_tag_http := x_robots_content
         sitemap := sitemap_url
         hreflangs := hreflangs }

/-- Python `text.split()` (no separator): split on runs of whitespace,
dropping empty chunks. `acc` holds the current word reversed. -/
def pySplitAux : List Char → List Char → List String
  | [], acc => if acc.isEmpty then [] else [String.mk acc.reverse]
  | c :: cs, acc =>
    if c.isWhitespace then
      (if acc.isEmpty then [] else [String.mk acc.reverse]) ++ pySplitAux cs []
    else pySplitAux cs (c :: acc)

/-- Python `text.split()` on a string. -/
def pySplit (s : String) : List String := pySplitAux s.toList []

/-- Python `str.lower()`, character by character. -/
def pyLower (s : String) : String := String.mk (s.toList.map Char.toLower)

/-- Models the iteration over `set(words)` at line 88. Python iterates a
set in an unspecified hash order; the model fixes first-occurrence order.
No claim depends on the order, only on which pairs are present. -/
def dedupFirst : List String → List String
  | [] => []
  | x :: xs => x :: (dedupFirst xs).filter (fun y => y != x)

/-- Stable insertion of one (word, count) pair into a list sorted by
count descending: the pair goes after every earlier pair with a strictly
larger count and before the rest, which is where Python's stable
`sorted(..., reverse=True)` puts it. -/
def insertByCount (x : String × Nat) : List (String × Nat) → List (String × Nat)
  | [] => [x]
  | y :: ys => if y.2 > x.2 then y :: insertByCount x ys else x :: y :: ys

/-- Stable sort by count descending, modelling
`sorted(word_freq.items(), key=lambda x: x[1], reverse=True)` (line 89). -/
def sortByCountDesc : List (String × Nat) → List (String × Nat)
  | [] => []
  | x :: xs => insertByCount x (sortByCountDesc xs)

/-- One statement of the form `if cond: score -= w` in
`calculate_seo_score`. -/
def applyDeduction (score : Int) (c : Bool) (w : Int) : Int :=
  if c then score - w else score

/-- The running deduction chain of `calculate_seo_score` before the final
clamp (source lines 109-128): `score` starts at 100 and each failed check
subtracts its fixed weight (conditions are the Python `==` and `<`
comparisons of lines 111-127, in source order). -/
def seo_score_pre (title meta_desc h1 : String) (word_count missing_alt : Nat)
    (indexability : Indexability) : Int :=
  let score : Int := 100
  let score := applyDeduction score (title == "Title not found") 10
  let score := applyDeduction score (meta_desc == "Meta description not found") 10
  let score := applyDeduction score (h1 == "H1 not found") 10
  let score := applyDeduction score (decide (word_count < 300)) 15
  let score := applyDeduction score (decide (missing_alt > 0)) 10
  let score := applyDeduction score (indexability.canonical_url == "Missing") 10
  let score := applyDeduction score (indexability.robots_meta_tag == "Missing") 5
  let score := applyDeduction score (indexability.x_robots_tag_http == "Missing") 5
  let score := applyDeduction score (indexability.hreflangs == HreflangsVal.missing) 5
  score

/-- Embeds `calculate_seo_score` (source lines 108-130): the deduction
chain followed by the clamp `max(score, 0)` at line 130. -/
def calculate_seo_score (title meta_desc h1 : String) (word_count missing_alt : Nat)
    (indexability : Indexability) : Int :=
  max (seo_score_pre title meta_desc h1 word_count missing_alt indexability) 0

/-- The dictionary returned by `extract_seo_data` (source lines 95-105),
one field per key, keeping the source key names. -/
structure SeoData where
  title : String
  meta_description : String
  h1 : String
  word_count : Nat
  missing_alt : Nat
  headings : List (String × Nat)
  keyword_density : List (String × Nat)
  indexability : Indexability
  seo_score : Int
deriving DecidableEq, Repr

/-- The truthy-content guard of line 75: `tag and tag.get('content')` is
true exactly when the tag was found and its content is neither absent nor
the empty string, in which case the content is used. -/
def truthyContent (t : Option Tag) : Option String :=
  match t with
  | some tag => match tag.get "content" with
    | some c => if c == "" then none else some c
    | none => none
  | none => none

/-- Embeds `extract_seo_data` (source lines 68-105). The BeautifulSoup
parse of the HTML string (line 69) is the library boundary: the function
takes the parsed `Soup` directly. A KeyError or UnboundLocalError raised
inside `extract_indexability_data` (line 91) propagates. -/
def extract_seo_data (soup : Soup) (url : String) : Except String SeoData :=
  let title := match soup.title with
    | some t => pyStrip t.text
    | none => "Title not found"
  let meta_desc := match truthyContent soup.metaDescription with
    | some c => pyStrip c
    | none => match truthyContent soup.ogDescription with
      | some c => pyStrip c
      | none => "Meta description not found"
  let h1 := match (soup.hTags 1).head? with
    | some t => pyStrip t.text
    | none => "H1 not found"
  let word_count := (pySplit soup.text).length
  let missing_alt := soup.imgs.countP (fun img => falsyAttr (img.get "alt"))
  let headings := (List.range 6).map (fun i =>
    ("H" ++ toString (i + 1), (soup.hTags (i + 1)).length))
  let words := pySplit (pyLower soup.text)
  let word_freq := (dedupFirst words).map (fun w => (w, words.count w))
  let sorted_keywords := (sortByCountDesc word_freq).take 10
  match extract_indexability_data url soup with
  | Except.error e => Except.error e
  | Except.ok indexability_data =>
    let seo_score := calculate_seo_score title meta_desc h1 word_count missing_alt indexability_data
    Except.ok { title := title
                meta_description := meta_desc
                h1 := h1
                word_count := word_count
                missing_alt := missing_alt
                headings := headings
                keyword_density := sorted_keywords
                indexability := indexability_data
                seo_score := seo_score }

/-- One statement of the form `if cond: todo_list.append(entry)` in
`generate_todo_list`. -/
def applyTodo (todo_list : List (String × String)) (c : Bool) (e : String × String) :
    List (String × String) :=
  if c then todo_list ++ [e] else todo_list

/-- Embeds `generate_todo_list` (source lines 133-164): the list built by
the nine conditional appends, in source order; the conditions are the
same comparisons `calculate_seo_score` makes. -/
def generate_todo_list (seo_data : SeoData) : List (String × String) :=
  let todo_list : List (String × String) := []
  let todo_list := applyTodo todo_list (seo_data.title == "Title not found")
    ("Title Tag", "Add a proper title for SEO.")
  let todo_list := applyTodo todo_list (seo_data.meta_description == "Meta description not found")
    ("Meta Description", "Add a relevant meta description.")
  let todo_list := applyTodo todo_list (seo_data.h1 == "H1 not found")
    ("H1 Tag", "Ensure there is a primary H1 tag.")
  let todo_list := applyTodo todo_list (decide (seo_data.word_count < 300))
    ("Content Length", "Increase word count to at least 300+.")
  let todo_list := applyTodo todo_list (decide (seo_data.missing_alt > 0))
    ("Image ALT Tags", "Add ALT text to " ++ toString seo_data.missing_alt ++ " images.")
  let todo_list := applyTodo todo_list (seo_data.indexability.canonical_url == "Missing")
    ("Canonical URL", "Add a canonical URL to prevent duplicate content.")
  let todo_list := applyTodo todo_list (seo_data.indexability.robots_meta_tag == "Missing")
    ("Robots Meta Tag", "Add a robots meta tag for better control.")
  let todo_list := applyTodo todo_list (seo_data.indexability.x_robots_tag_http == "Missing")
    ("X-Robots-Tag", "Consider setting an X-Robots-Tag HTTP header.")
  let todo_list := applyTodo todo_list (seo_data.indexability.hreflangs == HreflangsVal.missing)
    ("Hreflang Tags", "Add hreflang tags for multilingual sites.")
  todo_list

/-- The nine checks behind `generate_todo_list`, each as (condition fired,
entry appended when it fires), read off lines 136-162 in source order. -/
def todo_checks (d : SeoData) : List (Bool × (String × String)) :=
  [ (d.title == "Title not found", ("Title Tag", "Add a proper title for SEO.")),
    (d.meta_description == "Meta description not found",
      ("Meta Description", "Add a relevant meta description.")),
    (d.h1 == "H1 not found", ("H1 Tag", "Ensure there is a primary H1 tag.")),
    (decide (d.word_count < 300), ("Content Length", "Increase word count to at least 300+.")),
    (decide (d.missing_alt > 0), ("Image ALT Tags",
      "Add ALT text to " ++ toString d.missing_alt ++ " images.")),
    (d.indexability.canonical_url == "Missing",
      ("Canonical URL", "Add a canonical URL to prevent duplicate content.")),
    (d.indexability.robots_meta_tag == "Missing",
      ("Robots Meta Tag", "Add a robots meta tag for better control.")),
    (d.indexability.x_robots_tag_http == "Missing",
      ("X-Robots-Tag", "Consider setting an X-Robots-Tag HTTP header.")),
    (d.indexability.hreflangs == HreflangsVal.missing,
      ("Hreflang Tags", "Add hreflang tags for multilingual sites.")) ]

/-- The outcome of the guarded `requests.get(url, timeout=10)` followed by
`response.raise_for_status()` (lines 26-27): either the response body text,
or a `requests.exceptions.RequestException` carrying its message (a non-2xx
status turned into an exception by raise_for_status included). -/
inductive HttpResult where
  | success : String → HttpResult
  | exn : String → HttpResult
deriving DecidableEq, Repr

/-- Embeds `fetch_html` (source lines 24-31): the returned value paired
with the list of error messages displayed through `st.error`. On an
exception the error is displayed and None is returned; otherwise the body
text is returned and nothing is displayed. -/
def fetch_html (r : HttpResult) : Option String × List String :=
  match r with
  | .success t => (some t, [])
  | .exn e => (none, ["Error fetching the URL: " ++ e])

/-- The guard `if html:` in `main` (line 175): analysis runs only when
`fetch_html` returned a truthy value, i.e. a non-None, non-empty string. -/
def main_runs_analysis (html : Option String) : Bool :=
  match html with
  | some t => t != ""
  | none => false

/-- What `main` renders for the to-do section (lines 200-205): either the
table built from the list, or the success message. -/
inductive TodoRender where
  | table : List (String × String) → TodoRender
  | successMessage : TodoRender
deriving DecidableEq, Repr

/-- Embeds the to-do rendering branch of `main` (lines 201-205):
`if todo_list:` shows the table of the list, `else` the success message. -/
def main_todo_render (d : SeoData) : TodoRender :=
  let todo_list := generate_todo_list d
  if todo_list.isEmpty then TodoRender.successMessage else TodoRender.table todo_list

/-- A Python value as it appears in the extracted dictionary: a string, an
int, a nested dictionary of strings, a heading-count dictionary, a keyword
list, or the int-or-str hreflang entry. -/
inductive PyVal where
  | str : String → PyVal
  | int : Nat → PyVal
  | intval : Int → PyVal
  | counts : List (String × Nat) → PyVal
  | strDict : List (String × PyVal) → PyVal

/-- The indexability dictionary literal (lines 57-65) as key/value pairs;
the "Hreflangs" value is an int or the string "Missing". -/
def Indexability.toDict (x : Indexability) : List (String × PyVal) :=
  [ ("Canonical URL", PyVal.str x.canonical_url),
    ("Self-Canonical", PyVal.str x.self_canonical),
    ("Robots.txt", PyVal.str x.robots_txt),
    ("Robots Meta Tag", PyVal.str x.robots_meta_tag),
    ("X-Robots-Tag HTTP", PyVal.str x.x_robots_tag_http),
    ("Sitemap", PyVal.str x.sitemap),
    ("Hreflangs", match x.hreflangs with
      | .count n => PyVal.int n
      | .missing => PyVal.str "Missing") ]

/-- The dictionary literal returned by `extract_seo_data` (lines 95-105)
as key/value pairs, in source order. -/
def SeoData.toDict (d : SeoData) : List (String × PyVal) :=
  [ ("title", PyVal.str d.title),
    ("meta_description", PyVal.str d.meta_description),
    ("h1", PyVal.str d.h1),
    ("word_count", PyVal.int d.word_count),
    ("missing_alt", PyVal.int d.missing_alt),
    ("headings", PyVal.counts d.headings),
    ("keyword_density", PyVal.counts d.keyword_density),
    ("indexability", PyVal.strDict d.indexability.toDict),
    ("seo_score", PyVal.intval d.seo_score) ]

/-- The fields of the extracted record that `main` displays (lines
178-198): the score (178-179), then title, meta description, H1, word
count, missing-alt count (181-185), the heading structure (187-189), the
keyword density list (191-193) and the indexability entries (195-198). -/
def displayed_fields : List String :=
  ["seo_score", "title", "meta_description", "h1", "word_count",
   "missing_alt", "headings", "keyword_density", "indexability"]

/-- Modelled from the spec: the repository's spreadsheet (Excel) export
lives in sibling iterations of the script that are not under src/; the
spec fixes its schema as "an optional spreadsheet dump whose schema is
exactly the extracted field set", i.e. the keys of the extracted
dictionary. -/
def exported_schema : List String :=
  ["title", "meta_description", "h1", "word_count", "missing_alt",
   "headings", "keyword_density", "indexability", "seo_score"]

/-- Reference definition following claim C2's words: 100 minus the sum of
the fixed deductions (10 missing title, 10 missing meta description, 10
missing H1, 15 when word count is under 300, 10 when any image lacks alt
text, 10 missing canonical URL, 5 missing robots meta tag, 5 missing
X-Robots-Tag, 5 missing hreflangs), clamped below at 0. Missing-ness of a
text field is what the extraction step handed in: the sentinel value it
produces when the tag is absent. -/
def seo_score_ref (title meta_desc h1 : String) (word_count missing_alt : Nat)
    (indexability : Indexability) : Int :=
  let deductions : Int :=
    (if title = "Title not found" then 10 else 0)
    + (if meta_desc = "Meta description not found" then 10 else 0)
    + (if h1 = "H1 not found" then 10 else 0)
    + (if word_count < 300 then 15 else 0)
    + (if missing_alt > 0 then 10 else 0)
    + (if indexability.canonical_url = "Missing" then 10 else 0)
    + (if indexability.robots_meta_tag = "Missing" then 5 else 0)
    + (if indexability.x_robots_tag_http = "Missing" then 5 else 0)
    + (if indexability.hreflangs = HreflangsVal.missing then 5 else 0)
  max (100 - deductions) 0

/-- The deduction chain of `calculate_seo_score` as a function of the nine
check outcomes, used to reason about the score uniformly. -/
def dedChain (b1 b2 b3 b4 b5 b6 b7 b8 b9 : Bool) : Int :=
  applyDeduction (applyDeduction (applyDeduction (applyDeduction (applyDeduction
    (applyDeduction (applyDeduction (applyDeduction (applyDeduction 100
      b1 10) b2 10) b3 10) b4 15) b5 10) b6 10) b7 5) b8 5) b9 5

/-- The append chain of `generate_todo_list` as a function of the nine
check outcomes and entries, used to reason about the list uniformly. -/
def todoChain (b1 b2 b3 b4 b5 b6 b7 b8 b9 : Bool) (e1 e2 e3 e4 e5 e6 e7 e8 e9 : String × String) :
    List (String × String) :=
  applyTodo (applyTodo (applyTodo (applyTodo (applyTodo (applyTodo (applyTodo
    (applyTodo (applyTodo [] b1 e1) b2 e2) b3 e3) b4 e4) b5 e5) b6 e6) b7 e7) b8 e8) b9 e9

/-- A fully populated indexability record for concrete score inputs. -/
def sampleIdxFull : Indexability :=
  { canonical_url := "https://example.com/p", self_canonical := "✅ Matches URL",
    robots_txt := "https://example.com/robots.txt", robots_meta_tag := "index,follow",
    x_robots_tag_http := "noarchive", sitemap := "https://example.com/sitemap.xml",
    hreflangs := HreflangsVal.count 2 }

/-- A page whose head carries a sitemap link with a non-empty href, and
nothing else. -/
def soupSitemap : Soup :=
  { title := none, metaDescription := none, ogDescription := none,
    canonicalLink := none, robotsMeta := none, xRobotsMeta := none,
    sitemapLink := some ⟨[("href", "https://example.com/sm.xml")], ""⟩,
    hreflangLinks := [], imgs := [], hTags := fun _ => [], text := "" }

/-- A page with a single img element carrying an empty alt attribute. -/
def soupEmptyAlt : Soup :=
  { title := none, metaDescription := none, ogDescription := none,
    canonicalLink := none, robotsMeta := none, xRobotsMeta := none,
    sitemapLink := none, hreflangLinks := [],
    imgs := [⟨[("alt", ""), ("src", "x.png")], ""⟩],
    hTags := fun _ => [], text := "" }

/-- The record `extract_seo_data` produces for `soupEmptyAlt`. -/
def dEmptyAlt : SeoData :=
  { title := "Title not found", meta_description := "Meta description not found",
    h1 := "H1 not found", word_count := 0, missing_alt := 1,
    headings := [("H1", 0), ("H2", 0), ("H3", 0), ("H4", 0), ("H5", 0), ("H6", 0)],
    keyword_density := [],
    indexability :=
      { canonical_url := "Missing", self_canonical := "❌ Does Not Match",
        robots_txt := "https://example.com/robots.txt", robots_meta_tag := "Missing",
        x_robots_tag_http := "Missing", sitemap := "https://example.com/sitemap.xml",
        hreflangs := HreflangsVal.missing },
    seo_score := 20 }

lemma seo_score_pre_eq_dedChain (title meta_desc h1 : String)
    (word_count missing_alt : Nat) (idx : Indexability) :
    seo_score_pre title meta_desc h1 word_count missing_alt idx =
    dedChain (title == "Title not found") (meta_desc == "Meta description not found")
      (h1 == "H1 not found") (decide (word_count < 300)) (decide (missing_alt > 0))
      (idx.canonical_url == "Missing") (idx.robots_meta_tag == "Missing")
      (idx.x_robots_tag_http == "Missing") (idx.hreflangs == HreflangsVal.missing) := rfl

lemma dedChain_bounds : ∀ b1 b2 b3 b4 b5 b6 b7 b8 b9 : Bool,
    20 ≤ dedChain b1 b2 b3 b4 b5 b6 b7 b8 b9 ∧ dedChain b1 b2 b3 b4 b5 b6 b7 b8 b9 ≤ 100 := by
  decide

lemma dedChain_eq : ∀ b1 b2 b3 b4 b5 b6 b7 b8 b9 : Bool,
    dedChain b1 b2 b3 b4 b5 b6 b7 b8 b9 =
      100 - ((if b1 then (10 : Int) else 0) + (if b2 then 10 else 0) + (if b3 then 10 else 0)
        + (if b4 then 15 else 0) + (if b5 then 10 else 0) + (if b6 then 10 else 0)
        + (if b7 then 5 else 0) + (if b8 then 5 else 0) + (if b9 then 5 else 0)) := by
  decide

set_option synthInstance.maxSize 2000 in
lemma dedChain_eq_hundred : ∀ b1 b2 b3 b4 b5 b6 b7 b8 b9 : Bool,
    dedChain b1 b2 b3 b4 b5 b6 b7 b8 b9 = 100 ↔
      b1 = false ∧ b2 = false ∧ b3 = false ∧ b4 = false ∧ b5 = false ∧
      b6 = false ∧ b7 = false ∧ b8 = false ∧ b9 = false := by
  decide

/-- Claim C1: the SEO score is an integer in the closed range 0 to 100,
for every combination of extracted inputs. -/
theorem calculate_seo_score_in_range (title meta_desc h1 : String)
    (word_count missing_alt : Nat) (indexability : Indexability) :
    0 ≤ calculate_seo_score title meta_desc h1 word_count missing_alt indexability ∧
    calculate_seo_score title meta_desc h1 word_count missing_alt indexability ≤ 100 := by
  unfold calculate_seo_score
  rw [seo_score_pre_eq_dedChain]
  have h := dedChain_bounds (title == "Title not found")
    (meta_desc == "Meta description not found") (h1 == "H1 not found")
    (decide (word_count < 300)) (decide (missing_alt > 0))
    (indexability.canonical_url == "Missing") (indexability.robots_meta_tag == "Missing")
    (indexability.x_robots_tag_http == "Missing") (indexability.hreflangs == HreflangsVal.missing)
  omega

/-- Claim C2: the score equals 100 minus the sum of the fixed deductions,
clamped below at 0. -/
theorem calculate_seo_score_eq_ref (title meta_desc h1 : String)
    (word_count missing_alt : Nat) (indexability : Indexability) :
    calculate_seo_score title meta_desc h1 word_count missing_alt indexability =
    seo_score_ref title meta_desc h1 word_count missing_alt indexability := by
  unfold calculate_seo_score seo_score_ref
  rw [seo_score_pre_eq_dedChain, dedChain_eq]
  simp only [beq_iff_eq, decide_eq_true_eq]

/-- Claim C9: the deduction chain never drops below 20, so the clamp is a
no-op and the score lies in the range 20 to 100. -/
theorem calculate_seo_score_at_least_twenty (title meta_desc h1 : String)
    (word_count missing_alt : Nat) (indexability : Indexability) :
    20 ≤ seo_score_pre title meta_desc h1 word_count missing_alt indexability ∧
    calculate_seo_score title meta_desc h1 word_count missing_alt indexability =
      seo_score_pre title meta_desc h1 word_count missing_alt indexability ∧
    calculate_seo_score title meta_desc h1 word_count missing_alt indexability ≤ 100 := by
  unfold calculate_seo_score
  rw [seo_score_pre_eq_dedChain]
  have h := dedChain_bounds (title == "Title not found")
    (meta_desc == "Meta description not found") (h1 == "H1 not found")
    (decide (word_count < 300)) (decide (missing_alt > 0))
    (indexability.canonical_url == "Missing") (indexability.robots_meta_tag == "Missing")
    (indexability.x_robots_tag_http == "Missing") (indexability.hreflangs == HreflangsVal.missing)
  omega

lemma generate_todo_list_eq_todoChain (d : SeoData) :
    generate_todo_list d = todoChain
      (d.title == "Title not found") (d.meta_description == "Meta description not found")
      (d.h1 == "H1 not found") (decide (d.word_count < 300)) (decide (d.missing_alt > 0))
      (d.indexability.canonical_url == "Missing") (d.indexability.robots_meta_tag == "Missing")
      (d.indexability.x_robots_tag_http == "Missing") (d.indexability.hreflangs == HreflangsVal.missing)
      ("Title Tag", "Add a proper title for SEO.")
      ("Meta Description", "Add a relevant meta description.")
      ("H1 Tag", "Ensure there is a primary H1 tag.")
      ("Content Length", "Increase word count to at least 300+.")
      ("Image ALT Tags", "Add ALT text to " ++ toString d.missing_alt ++ " images.")
      ("Canonical URL", "Add a canonical URL to prevent duplicate content.")
      ("Robots Meta Tag", "Add a robots meta tag for better control.")
      ("X-Robots-Tag", "Consider setting an X-Robots-Tag HTTP header.")
      ("Hreflang Tags", "Add hreflang tags for multilingual sites.") := rfl

lemma applyTodo_eq_nil (l : List (String × String)) (c : Bool) (e : String × String) :
    applyTodo l c e = [] ↔ l = [] ∧ c = false := by
  cases c <;> simp [applyTodo]

lemma todoChain_eq_nil (b1 b2 b3 b4 b5 b6 b7 b8 b9 : Bool)
    (e1 e2 e3 e4 e5 e6 e7 e8 e9 : String × String) :
    todoChain b1 b2 b3 b4 b5 b6 b7 b8 b9 e1 e2 e3 e4 e5 e6 e7 e8 e9 = [] ↔
      b1 = false ∧ b2 = false ∧ b3 = false ∧ b4 = false ∧ b5 = false ∧
      b6 = false ∧ b7 = false ∧ b8 = false ∧ b9 = false := by
  simp [todoChain, applyTodo_eq_nil, and_assoc]

/-- Claim C10: for a record whose score field was computed from its own
fields, the to-do list is empty exactly when the score is 100. -/
theorem generate_todo_list_empty_iff_perfect (d : SeoData)
    (h : d.seo_score = calculate_seo_score d.title d.meta_description d.h1
      d.word_count d.missing_alt d.indexability) :
    generate_todo_list d = [] ↔ d.seo_score = 100 := by
  rw [h, generate_todo_list_eq_todoChain]
  unfold calculate_seo_score
  rw [seo_score_pre_eq_dedChain]
  generalize (d.title == "Title not found") = b1
  generalize (d.meta_description == "Meta description not found") = b2
  generalize (d.h1 == "H1 not found") = b3
  generalize (decide (d.word_count < 300)) = b4
  generalize (decide (d.missing_alt > 0)) = b5
  generalize (d.indexability.canonical_url == "Missing") = b6
  generalize (d.indexability.robots_meta_tag == "Missing") = b7
  generalize (d.indexability.x_robots_tag_http == "Missing") = b8
  generalize (d.indexability.hreflangs == HreflangsVal.missing) = b9
  rw [todoChain_eq_nil]
  rw [max_eq_left (by have := dedChain_bounds b1 b2 b3 b4 b5 b6 b7 b8 b9; omega)]
  exact (dedChain_eq_hundred b1 b2 b3 b4 b5 b6 b7 b8 b9).symm

lemma generate_todo_list_eq_foldl (d : SeoData) :
    generate_todo_list d = (todo_checks d).foldl (fun l c => applyTodo l c.1 c.2) [] := rfl

lemma foldl_applyTodo_eq (checks : List (Bool × (String × String))) (acc : List (String × String)) :
    checks.foldl (fun l c => applyTodo l c.1 c.2) acc =
      acc ++ (checks.filter (fun c => c.1)).map (fun c => c.2) := by
  induction checks generalizing acc with
  | nil => simp
  | cons x xs ih =>
    rw [List.foldl_cons, ih, List.filter_cons]
    cases hx : x.1 <;> simp [applyTodo, hx, List.append_assoc]

/-- Claim C6: the to-do table is rendered exactly when the generated list
is non-empty (the success message otherwise), and the generated list is
exactly the entries of the failed checks. -/
theorem main_todo_render_spec (d : SeoData) :
    (main_todo_render d = TodoRender.successMessage ↔ generate_todo_list d = []) ∧
    (generate_todo_list d ≠ [] → main_todo_render d = TodoRender.table (generate_todo_list d)) ∧
    generate_todo_list d = ((todo_checks d).filter (fun c => c.1)).map (fun c => c.2) := by
  refine ⟨?_, ?_, ?_⟩
  · unfold main_todo_render
    rcases h : generate_todo_list d with _ | ⟨a, l⟩ <;> simp
  · intro h
    unfold main_todo_render
    rcases hg : generate_todo_list d with _ | ⟨a, l⟩ <;> simp_all
  · rw [generate_todo_list_eq_foldl, foldl_applyTodo_eq]
    simp

/-- Claim C3 (amended): the score checks are presence-only. Whenever the
title, meta description and H1 are present (not the extractor's missing
sentinels) on both sides, the scores agree whatever the lengths of those
fields, and the heading-structure and keyword-density fields of a record
never enter the score at all. -/
theorem seo_score_presence_only (t1 t2 m1 m2 g1 g2 : String) (wc ma : Nat) (idx : Indexability)
    (ht1 : t1 ≠ "Title not found") (ht2 : t2 ≠ "Title not found")
    (hm1 : m1 ≠ "Meta description not found") (hm2 : m2 ≠ "Meta description not found")
    (hg1 : g1 ≠ "H1 not found") (hg2 : g2 ≠ "H1 not found") :
    calculate_seo_score t1 m1 g1 wc ma idx = calculate_seo_score t2 m2 g2 wc ma idx ∧
    ∀ (d : SeoData) (hd kd : List (String × Nat)),
      calculate_seo_score d.title d.meta_description d.h1 d.word_count d.missing_alt d.indexability =
      calculate_seo_score ({ d with headings := hd, keyword_density := kd } : SeoData).title
        ({ d with headings := hd, keyword_density := kd } : SeoData).meta_description
        ({ d with headings := hd, keyword_density := kd } : SeoData).h1
        ({ d with headings := hd, keyword_density := kd } : SeoData).word_count
        ({ d with headings := hd, keyword_density := kd } : SeoData).missing_alt
        ({ d with headings := hd, keyword_density := kd } : SeoData).indexability := by
  constructor
  · unfold calculate_seo_score
    rw [seo_score_pre_eq_dedChain, seo_score_pre_eq_dedChain,
      beq_eq_false_iff_ne.mpr ht1, beq_eq_false_iff_ne.mpr ht2,
      beq_eq_false_iff_ne.mpr hm1, beq_eq_false_iff_ne.mpr hm2,
      beq_eq_false_iff_ne.mpr hg1, beq_eq_false_iff_ne.mpr hg2]
  · intro d hd kd
    rfl

/-- Claim C3 (counterexample): two inputs that differ only in the length
of their (present) titles receive the same score. -/
theorem seo_score_title_length_cex :
    calculate_seo_score "Hi" "desc" "heading" 500 0 sampleIdxFull =
      calculate_seo_score "A considerably longer page title" "desc" "heading" 500 0 sampleIdxFull ∧
    "Hi".length ≠ "A considerably longer page title".length := by
  exact ⟨rfl, by decide⟩

/-- Claim C3 (witness for the amended theorem). -/
theorem seo_score_presence_only_witness :
    calculate_seo_score "Short" "Meta A" "Head A" 42 3 sampleIdxFull =
      calculate_seo_score "A very different and much longer title" "Meta B longer" "HB" 42 3 sampleIdxFull :=
  (seo_score_presence_only "Short" "A very different and much longer title" "Meta A"
    "Meta B longer" "Head A" "HB" 42 3 sampleIdxFull (by decide) (by decide) (by decide)
    (by decide) (by decide) (by decide)).1

/-- Claim C4: a network exception is caught inside `fetch_html`, the error
is displayed and None is returned; a successful response returns its body
text and displays nothing; in `main` a None result is falsy, so no
analysis runs on it. -/
theorem fetch_html_catches_and_returns_none :
    (∀ e, fetch_html (HttpResult.exn e) = (none, ["Error fetching the URL: " ++ e])) ∧
    (∀ t, fetch_html (HttpResult.success t) = (some t, [])) ∧
    main_runs_analysis none = false :=
  ⟨fun _ => rfl, fun _ => rfl, rfl⟩

/-- Claim C8: on a page with a sitemap link carrying an href, the
robots.txt line reads the local `parsed_url`, which the sitemap-present
branch never assigned: the function fails with UnboundLocalError. -/
theorem extract_indexability_unbound_local :
    extract_indexability_data "https://example.com/page" soupSitemap =
      Except.error "UnboundLocalError: parsed_url" := rfl

lemma falsyAttr_eq (v : Option String) :
    falsyAttr v = decide (v = none ∨ v = some "") := by
  cases v with
  | none => simp [falsyAttr]
  | some s =>
    simp only [falsyAttr, Option.some.injEq, false_or]
    rw [Bool.eq_iff_iff]
    simp

/-- Claim C5 (amended): the extracted `missing_alt` counts the img
elements whose alt attribute is absent or equal to the empty string (the
two falsy cases of `img.get('alt')`). -/
theorem missing_alt_counts_absent_or_empty (soup : Soup) (url : String) (d : SeoData)
    (h : extract_seo_data soup url = Except.ok d) :
    d.missing_alt =
      soup.imgs.countP (fun img => decide (img.get "alt" = none ∨ img.get "alt" = some "")) := by
  cases hI : extract_indexability_data url soup with
  | error e =>
    rw [extract_seo_data] at h
    rw [hI] at h
    exact absurd h (by simp)
  | ok idx =>
    rw [extract_seo_data] at h
    rw [hI] at h
    simp only [Except.ok.injEq] at h
    rw [← h]
    simp only [List.countP]
    congr 1
    funext img
    rw [falsyAttr_eq]

/-- Claim C5 (counterexample): the page `soupEmptyAlt` has one img whose
alt attribute is present but empty; the extractor reports `missing_alt`
as 1 although zero img elements lack the attribute. -/
theorem missing_alt_empty_alt_cex :
    (extract_seo_data soupEmptyAlt "https://example.com/").map SeoData.missing_alt =
      Except.ok 1 ∧
    soupEmptyAlt.imgs.countP (fun img => decide (img.get "alt" = none)) = 0 :=
  ⟨rfl, rfl⟩

/-- Claim C5 (witness for the amended theorem). -/
theorem missing_alt_counts_absent_or_empty_witness :
    dEmptyAlt.missing_alt =
      soupEmptyAlt.imgs.countP
        (fun img => decide (img.get "alt" = none ∨ img.get "alt" = some "")) :=
  missing_alt_counts_absent_or_empty soupEmptyAlt "https://example.com/" dEmptyAlt (by rfl)

/-- Claim C7: every successfully extracted record carries exactly the nine
fields title, meta_description, h1, word_count, missing_alt, headings,
keyword_density, indexability and seo_score, the fields `main` displays
are exactly that set, and the spec's export schema equals it too. -/
theorem extract_seo_data_schema (soup : Soup) (url : String) (d : SeoData)
    (_h : extract_seo_data soup url = Except.ok d) :
    d.toDict.map Prod.fst = ["title", "meta_description", "h1", "word_count",
      "missing_alt", "headings", "keyword_density", "indexability", "seo_score"] ∧
    (∀ k, k ∈ displayed_fields ↔ k ∈ d.toDict.map Prod.fst) ∧
    exported_schema = d.toDict.map Prod.fst := by
  refine ⟨rfl, ?_, rfl⟩
  intro k
  show k ∈ displayed_fields ↔ k ∈ ["title", "meta_description", "h1", "word_count",
    "missing_alt", "headings", "keyword_density", "indexability", "seo_score"]
  simp [displayed_fields]
  tauto

/-- Claim C7 (witness). -/
theorem extract_seo_data_schema_witness :
    dEmptyAlt.toDict.map Prod.fst = ["title", "meta_description", "h1", "word_count",
      "missing_alt", "headings", "keyword_density", "indexability", "seo_score"] :=
  (extract_seo_data_schema soupEmptyAlt "https://example.com/" dEmptyAlt (by rfl)).1

/-- Claim C6 (witness): on a record with failing checks the table of the
generated list is rendered. -/
theorem main_todo_render_spec_witness :
    main_todo_render dEmptyAlt = TodoRender.table (generate_todo_list dEmptyAlt) :=
  (main_todo_render_spec dEmptyAlt).2.1 (by decide)

/-- Claim C10 (witness): `dEmptyAlt` scores 20 by its own fields, and
accordingly its to-do list is non-empty. -/
theorem generate_todo_list_empty_iff_perfect_witness :
    generate_todo_list dEmptyAlt = [] ↔ dEmptyAlt.seo_score = 100 :=
  generate_todo_list_empty_iff_perfect dEmptyAlt (by rfl)
